import Mathlib

/-!
Shallow embedding of the JetSendNotifications serverless handlers.

The repository contains several variants of one request handler:
  * V1: the `$collectionId`-dispatching variant at the top of `src/index.ts`
    (dynamic push tokens fetched from a `pushTokens` collection with a users
    collection fallback, Expo delivery API);
  * V2: `src/sendPushNotification.ts` (managed push-target registry via
    `client.call`, no credential guard);
  * V3: the third handler embedded in `src/index.ts` (events-based routing,
    hardcoded Expo push token, commented-out `targets` lookup).

JavaScript strings are modelled as Lean `String`; `s.length`, `s.slice(0,n)`
and `s.trim()` are modelled by the character-list functions `jsLen`, `jsSlice`
and `jsBlank` below (for the ASCII data handled here, JS UTF-16 units and
characters coincide).  Possibly-`undefined` JS values are `Option`s, and JS
truthiness / strict equality are modelled explicitly.  External effects
(`JSON.parse`, the Appwrite document store, the messaging target registry and
the Expo push HTTP endpoint) are supplied as a `World` of pure functions, and
every observable outbound call is recorded in a `Trace`.
-/

namespace JetSend

/-- Replaces every occurrence of `pat` by `rep`, scanning left to right, the
way the JS global-regex `String.prototype.replace` does; `fuel` bounds the
recursion (callers pass the input length, which suffices for non-empty
patterns). -/
def jsReplaceList (pat rep : List Char) : Nat → List Char → List Char
  | _, [] => []
  | 0, s => s
  | fuel+1, c :: rest =>
      if pat ≠ [] ∧ pat.isPrefixOf (c :: rest) then
        rep ++ jsReplaceList pat rep fuel ((c :: rest).drop pat.length)
      else c :: jsReplaceList pat rep fuel rest

/-- Removes one leading quote character, first half of the `/^"|"$/g` regex. -/
def dropLeadQuote : List Char → List Char
  | '\"' :: r => r
  | l => l

/-- Removes one trailing quote character, second half of `/^"|"$/g`. -/
def dropTrailQuote (l : List Char) : List Char :=
  if l.getLast? = some '\"' then l.dropLast else l

/-- Quote-cleaning applied to a string request body in index.ts:
`req.body.replace(/^"|"$/g, '').replace(/\\"/g, '"')`. -/
def cleanBody (s : String) : String :=
  let l := dropTrailQuote (dropLeadQuote s.toList)
  String.mk (jsReplaceList ['\\', '\"'] ['\"'] l.length l)

/-- JS `s.length` (character count). -/
def jsLen (s : String) : Nat := s.toList.length

/-- JS `s.slice(0, n)`. -/
def jsSlice (s : String) (n : Nat) : String := String.mk (s.toList.take n)

/-- True when `s.trim() === ''` in JS, i.e. the string is all whitespace. -/
def jsBlank (s : String) : Bool := s.toList.all Char.isWhitespace

/-- JS truthiness of a possibly-undefined string (`undefined`, `null` and
the empty string are falsy). -/
def truthyStr : Option String → Bool
  | none => false
  | some s => !(s == "")

/-- JS truthiness of a possibly-undefined array (any array, even `[]`, is
truthy; only a missing value is falsy). -/
def truthyList : Option (List String) → Bool
  | none => false
  | some _ => true

/-- JS strict equality `===` on possibly-undefined strings;
`undefined === undefined` is `true`. -/
def jsStrictEq : Option String → Option String → Bool
  | none, none => true
  | some a, some b => a == b
  | none, some _ => false
  | some _, none => false

/-- JS `x || dflt` for a string configuration value with a string default. -/
def jsOr (o : Option String) (d : String) : String :=
  match o with
  | none => d
  | some s => if s == "" then d else s

/-- JS `x || null` on a possibly-undefined string. -/
def jsOrNull (o : Option String) : Option String :=
  match o with
  | none => none
  | some s => if s == "" then none else some s

/-- JS `String.prototype.includes` (substring containment). -/
def containsSubstr (s pat : String) : Bool :=
  decide (pat.toList <:+: s.toList)

/-- A stored document as the handlers read it: every field access on a JS
object may yield `undefined`, so all fields are optional.  `idF` stands for
the Appwrite `$id` field. -/
structure Doc where
  idF : Option String := none
  name : Option String := none
  image : Option String := none
  authorId : Option String := none
  authorName : Option String := none
  title : Option String := none
  content : Option String := none
  userId : Option String := none
  postId : Option String := none
  pushToken : Option String := none
  expoPushToken : Option String := none
deriving Repr, DecidableEq

/-- The parsed request payload.  A webhook payload inlines the document
fields into the payload object itself, so the payload carries a `Doc` view
(`doc`) of its own fields; `title` and `postId` read by `handleDirectCall`
are those same JS fields, hence they live in `doc`.  `collectionId` stands
for `$collectionId`. -/
structure Payload where
  doc : Doc := {}
  collectionId : Option String := none
  events : List String := []
  document : Option Doc := none
  userIds : Option (List String) := none
  bodyF : Option String := none
  typeF : Option String := none
deriving Repr, DecidableEq

/-- The environment variables the handlers read. -/
structure Env where
  projectId : Option String := none
  apiKey : Option String := none
  databaseId : Option String := none
  usersCollectionId : Option String := none
  postsCollectionId : Option String := none
  commentsCollectionId : Option String := none
  pushTokensCollectionId : Option String := none
  expoAccessToken : Option String := none
deriving Repr, DecidableEq

/-- A delivery receipt entry of the Expo response body (`result.data[i]`). -/
structure ExpoReceipt where
  id : Option String := none
deriving Repr, DecidableEq

/-- The JSON body of a successful Expo response (`result`). -/
structure ExpoResult where
  data : Option (List ExpoReceipt) := none
deriving Repr, DecidableEq

/-- The HTTP response of the Expo push endpoint: `ok` status flag, the error
text read by `response.text()` on failure and the JSON read by
`response.json()` on success. -/
structure PushResponse where
  ok : Bool
  errorText : String := ""
  result : ExpoResult := {}
deriving Repr, DecidableEq

/-- A managed push target returned by the messaging registry. -/
structure Target where
  identifier : String
deriving Repr, DecidableEq

/-- The `data` object of the Expo push payload (`ptype` stands for the JS
field `type`; `paramsPostId` is `params.postId`). -/
structure ExpoData where
  postId : Option String := none
  ptype : Option String := none
  authorName : Option String := none
  authorImage : Option String := none
  postImage : Option String := none
  postTitle : Option String := none
  commentContent : Option String := none
  screen : Option String := none
  paramsPostId : Option String := none
deriving Repr, DecidableEq

/-- The JSON payload POSTed to the Expo push endpoint.  `toF` stands for the
JS field `to` (the recipient token list); `attachments` keeps the attachment
URLs. -/
structure ExpoPayload where
  toF : List String
  title : String
  body : String
  data : ExpoData
  badge : Nat := 1
  sound : Option String := none
  priority : Option String := none
  attachments : List String := []
deriving Repr, DecidableEq

/-- The notification intent handed to the dispatch function. -/
structure NotificationData where
  userIds : List String
  title : String
  body : String
  postId : Option String := none
  ptype : Option String := none
  authorName : Option String := none
  authorImage : Option String := none
  postImage : Option String := none
  postTitle : Option String := none
  commentContent : Option String := none
deriving Repr, DecidableEq

/-- The JSON response of one invocation (fields absent from a given
`res.json` call are `none`; a JS `undefined` field value is also `none`). -/
structure Response where
  status : Nat
  ok : Bool
  error : Option String := none
  message : Option String := none
  sentTo : Option Nat := none
  messageId : Option String := none
  tokensUsed : Option Nat := none
deriving Repr, DecidableEq

/-- Record of the outbound calls one invocation makes: body-parse attempts,
document-store calls (`getDocument`/`listDocuments`), messaging-target
registry calls, and the Expo push payloads POSTed. -/
structure Trace where
  parseAttempts : Nat := 0
  dbCalls : Nat := 0
  targetCalls : Nat := 0
  pushArgs : List ExpoPayload := []
deriving Repr, DecidableEq

/-- Concatenation of traces of two consecutive program phases. -/
def Trace.add (a b : Trace) : Trace :=
  { parseAttempts := a.parseAttempts + b.parseAttempts
    dbCalls := a.dbCalls + b.dbCalls
    targetCalls := a.targetCalls + b.targetCalls
    pushArgs := a.pushArgs ++ b.pushArgs }

/-- The single JSON response of an invocation together with the trace of
outbound calls it made. -/
structure Outcome where
  resp : Response
  trace : Trace := {}
deriving Repr, DecidableEq

/-- The raw `req.body`: a string, an already-parsed object, or any other
value (`null`, a number, ...). -/
inductive ReqBody where
  | str (s : String)
  | obj (p : Payload)
  | other
deriving Repr, DecidableEq

/-- External behaviour an invocation can observe: `parse` is `JSON.parse`
on a body text (an `error` is a thrown `SyntaxError` with its message),
`getDoc`/`listDocs` are the Appwrite document store, `push` is the Expo
push HTTP endpoint, and `listTargets` lists the managed push targets of one
user. -/
structure World where
  parse : String → Except String Payload
  getDoc : String → String → String → Except String Doc
  listDocs : String → String → Except String (List Doc)
  push : ExpoPayload → PushResponse
  listTargets : String → Except String (List Target)

/-- The `databases.getDocument` call on a possibly-undefined document id;
calling the SDK with `undefined` rejects before reaching the server. -/
def getDocCall (w : World) (dbId coll : String) (oid : Option String) : Except String Doc :=
  match oid with
  | none => Except.error "Invalid documentId param"
  | some i => w.getDoc dbId coll i

/-- The token filter `.filter(token => token && token.trim() !== '')`
applied after mapping a token field over the fetched documents. -/
def tokenFilter (ts : List (Option String)) : List String :=
  ts.filterMap (fun t =>
    match t with
    | some s => if s == "" then none else if jsBlank s then none else some s
    | none => none)

/-- Routing outcome of the `$collectionId` dispatch in V1 (index.ts
112-123). -/
inductive Route where
  | newPost
  | newComment
  | direct
deriving Repr, DecidableEq

/-- The `$collectionId` routing of V1: strict-equality comparison of the
`$collectionId` of the payload against `POSTS_COLLECTION_ID`, then
`COMMENTS_COLLECTION_ID`, else a direct call. -/
def routeV1 (env : Env) (p : Payload) : Route :=
  if jsStrictEq p.collectionId env.postsCollectionId then Route.newPost
  else if jsStrictEq p.collectionId env.commentsCollectionId then Route.newComment
  else Route.direct

/-- Placeholder payload constructed by index.ts when a string body fails to
parse as JSON (lines 90-98): hardcoded userIds/title/postId/type, the
cleaned body text as `body`, empty `events` and an empty `document`. -/
def placeholderPayload (cleaned : String) : Payload :=
  { doc := { title := some "Test Notification", postId := some "6897373f0013ebd5a0c6" }
    collectionId := none
    events := []
    document := some {}
    userIds := some ["6899b68b00337f047f35"]
    bodyF := some cleaned
    typeF := some "new_post" }

/-- Body normalisation of V1 and V3 on a string body (index.ts 83-99):
quote-clean, then `JSON.parse`, falling back to the placeholder payload when
parsing throws. -/
def parseStringBody (w : World) (s : String) : Payload :=
  let cleaned := cleanBody s
  match w.parse cleaned with
  | Except.ok p => p
  | Except.error _ => placeholderPayload cleaned

/-- Extraction `result.data?.[0]?.id` from the Expo response JSON. -/
def extractMessageId (r : ExpoResult) : Option String :=
  match r.data with
  | none => none
  | some rs =>
      match rs.head? with
      | none => none
      | some rc => rc.id

/-- The `getUserPushTokens` helper of V1 (index.ts 360-425): query the
`pushTokens` collection filtered to the requested user ids (capped at 100),
falling back to the users collection (`pushToken || expoPushToken` field)
when the first query throws; any further failure degrades to `[]`. -/
def getUserPushTokensV1 (w : World) (env : Env) (userIds : List String) :
    List String × Trace :=
  let databaseId := jsOr env.databaseId "default"
  let pushTokensCollectionId := jsOr env.pushTokensCollectionId "push_tokens"
  match w.listDocs databaseId pushTokensCollectionId with
  | Except.ok docs =>
      let selected := (docs.filter (fun d =>
        match d.userId with
        | some u => userIds.contains u
        | none => false)).take 100
      (tokenFilter (selected.map (fun d => d.pushToken)), { dbCalls := 1 })
  | Except.error _ =>
      let usersCollectionId := jsOr env.usersCollectionId "users_collection"
      match w.listDocs databaseId usersCollectionId with
      | Except.ok docs =>
          let selected := (docs.filter (fun d =>
            match d.idF with
            | some i => userIds.contains i
            | none => false)).take 100
          (tokenFilter (selected.map (fun d =>
            if truthyStr d.pushToken then d.pushToken else d.expoPushToken)),
           { dbCalls := 2 })
      | Except.error _ => ([], { dbCalls := 2 })

/-- The enhanced Expo payload V1 builds (index.ts 295-318). -/
def buildExpoPayloadV1 (nd : NotificationData) (pushTokens : List String) : ExpoPayload :=
  { toF := pushTokens
    title := nd.title
    body := nd.body
    data :=
      { postId := nd.postId
        ptype := nd.ptype
        authorName := nd.authorName
        authorImage := nd.authorImage
        postImage := nd.postImage
        postTitle := nd.postTitle
        commentContent := nd.commentContent
        screen := some (if nd.ptype == some "new_post" then "PostDetails" else "PostDetails")
        paramsPostId := nd.postId }
    badge := 1
    sound := some "default"
    priority := some "high"
    attachments :=
      (if truthyStr nd.authorImage then [nd.authorImage.getD ""] else []) ++
      (if truthyStr nd.postImage then [nd.postImage.getD ""] else []) }

/-- The `sendPushNotifications` dispatcher of V1 (index.ts 272-358): resolve
tokens, report `ok:true` with `sentTo: 0` when none are found, otherwise
POST to Expo and translate the response.  Nothing inside its `try` block can
throw in this model, so the surrounding catch is not represented. -/
def sendPushNotificationsV1 (w : World) (env : Env) (nd : NotificationData) : Outcome :=
  let r := getUserPushTokensV1 w env nd.userIds
  let pushTokens := r.1
  if pushTokens.length = 0 then
    { resp := { status := 200, ok := true, message := some "No push tokens found", sentTo := some 0 }
      trace := r.2 }
  else
    let payload := buildExpoPayloadV1 nd pushTokens
    let response := w.push payload
    let t2 := r.2.add { pushArgs := [payload] }
    if !response.ok then
      { resp := { status := 500, ok := false, error := some response.errorText }, trace := t2 }
    else
      { resp :=
          { status := 200
            ok := true
            messageId := extractMessageId response.result
            sentTo := some pushTokens.length
            tokensUsed := some pushTokens.length }
        trace := t2 }

/-- Notification body composed by the V1 `handleNewPost` handler (index.ts 162-171):
quote the title when present, else a 60-character preview of the content
with an ellipsis appended when the content is longer than 60. -/
def postBodyV1 (authorName : String) (title content : Option String) : String :=
  let base := authorName ++ " shared a new post"
  if truthyStr title then base ++ ": \"" ++ title.getD "" ++ "\""
  else if truthyStr content then
    let c := content.getD ""
    let preview := if 60 < jsLen c then jsSlice c 60 ++ "..." else c
    base ++ ": \"" ++ preview ++ "\""
  else base

/-- Notification body composed by the V1 `handleNewComment` handler (index.ts
224-233), with a 40-character preview budget. -/
def commentBodyV1 (commenterName : String) (title content : Option String) : String :=
  let base := commenterName ++ " commented on your post"
  if truthyStr title then base ++ ": \"" ++ title.getD "" ++ "\""
  else if truthyStr content then
    let c := content.getD ""
    let preview := if 40 < jsLen c then jsSlice c 40 ++ "..." else c
    base ++ ": \"" ++ preview ++ "\""
  else base

/-- The `handleNewPost` handler of V1 (index.ts 131-191): fetch the author,
list all users, drop the author from the recipients, short-circuit when no
one is left, else build the enriched notification and dispatch it.  The
catch of the handler converts a failed fetch into an `ok:false` 500 response. -/
def handleNewPostV1 (w : World) (env : Env) (postDoc : Doc) : Outcome :=
  let databaseId := jsOr env.databaseId "default"
  let usersCollectionId := jsOr env.usersCollectionId "users_collection"
  match getDocCall w databaseId usersCollectionId postDoc.authorId with
  | Except.error msg =>
      { resp := { status := 500, ok := false, error := some msg }, trace := { dbCalls := 1 } }
  | Except.ok author =>
      let authorName := jsOr author.name "Someone"
      let authorImage := jsOrNull author.image
      match w.listDocs databaseId usersCollectionId with
      | Except.error msg =>
          { resp := { status := 500, ok := false, error := some msg }, trace := { dbCalls := 2 } }
      | Except.ok users =>
          let userIds := ((users.take 100).map (fun u => u.idF.getD "")).filter
            (fun uid => !(jsStrictEq (some uid) postDoc.authorId))
          if userIds.length = 0 then
            { resp := { status := 200, ok := true, message := some "No users to notify" }
              trace := { dbCalls := 2 } }
          else
            let nd : NotificationData :=
              { userIds := userIds
                title := "New Post"
                body := postBodyV1 authorName postDoc.title postDoc.content
                postId := postDoc.idF
                ptype := some "new_post"
                authorName := some authorName
                authorImage := authorImage
                postImage := postDoc.image
                postTitle := postDoc.title }
            let o := sendPushNotificationsV1 w env nd
            { o with trace := (Trace.add { dbCalls := 2 } o.trace) }

/-- The `handleNewComment` handler of V1 (index.ts 193-254): fetch the post
and the commenter (both calls are issued by `Promise.all`), short-circuit
with a benign response when the commenter is the post author, else notify
only the post author. -/
def handleNewCommentV1 (w : World) (env : Env) (commentDoc : Doc) : Outcome :=
  let databaseId := jsOr env.databaseId "default"
  let postsCollectionId := jsOr env.postsCollectionId "6896fbb2003568eb4840"
  let usersCollectionId := jsOr env.usersCollectionId "users_collection"
  let postRes := getDocCall w databaseId postsCollectionId commentDoc.postId
  let commenterRes := getDocCall w databaseId usersCollectionId commentDoc.userId
  let t0 : Trace := { dbCalls := 2 }
  match postRes, commenterRes with
  | Except.error msg, _ =>
      { resp := { status := 500, ok := false, error := some msg }, trace := t0 }
  | Except.ok _, Except.error msg =>
      { resp := { status := 500, ok := false, error := some msg }, trace := t0 }
  | Except.ok post, Except.ok commenter =>
      if jsStrictEq post.authorId commentDoc.userId then
        { resp := { status := 200, ok := true, message := some "No notification needed - same user" }
          trace := t0 }
      else
        let commenterName := jsOr commenter.name "Someone"
        let commenterImage := jsOrNull commenter.image
        let nd : NotificationData :=
          { userIds := [post.authorId.getD ""]
            title := "New Comment"
            body := commentBodyV1 commenterName post.title post.content
            postId := commentDoc.postId
            ptype := some "new_comment"
            authorName := some commenterName
            authorImage := commenterImage
            postImage := post.image
            postTitle := post.title
            commentContent := commentDoc.content }
        let o := sendPushNotificationsV1 w env nd
        { o with trace := (Trace.add t0 o.trace) }

/-- The `handleDirectCall` handler of V1 (index.ts 256-270).  When a
required field is absent or falsy it throws; the module-level catch
(index.ts 124-128) turns the thrown message into an `ok:false` 500
response, which the embedding fuses here. -/
def handleDirectCallV1 (w : World) (env : Env) (p : Payload) : Outcome :=
  if !(truthyList p.userIds) || !(truthyStr p.doc.title) || !(truthyStr p.bodyF)
      || !(truthyStr p.doc.postId) || !(truthyStr p.typeF) then
    { resp :=
        { status := 500, ok := false
          error := some "Missing required fields: userIds, title, body, postId, type" } }
  else
    sendPushNotificationsV1 w env
      { userIds := p.userIds.getD []
        title := p.doc.title.getD ""
        body := p.bodyF.getD ""
        postId := p.doc.postId
        ptype := p.typeF }

/-- Dispatch of a parsed payload in V1 (index.ts 111-123), with the trace
`t0` accumulated by the body-normalisation step.  The document data handed
to the webhook handlers is `webhookPayload.document || webhookPayload`. -/
def routeAndRunV1 (w : World) (env : Env) (p : Payload) (t0 : Trace) : Outcome :=
  match routeV1 env p with
  | Route.newPost =>
      let o := handleNewPostV1 w env (p.document.getD p.doc)
      { o with trace := t0.add o.trace }
  | Route.newComment =>
      let o := handleNewCommentV1 w env (p.document.getD p.doc)
      { o with trace := t0.add o.trace }
  | Route.direct =>
      let o := handleDirectCallV1 w env p
      { o with trace := t0.add o.trace }

/-- The module-level handler of V1 (index.ts 57-129): credential guards,
body normalisation (placeholder fallback on a failed string parse), then
the `$collectionId` dispatch.  A non-string non-object body throws
`Invalid request body format`, which the nested catches rewrap and the
module catch reports at 500. -/
def moduleExportsV1 (w : World) (env : Env) (body : ReqBody) : Outcome :=
  if !(truthyStr env.projectId) then
    { resp := { status := 500, ok := false, error := some "APPWRITE_PROJECT_ID is not defined" } }
  else if !(truthyStr env.apiKey) then
    { resp := { status := 500, ok := false, error := some "APPWRITE_API_KEY is not defined" } }
  else
    match body with
    | ReqBody.other =>
        { resp :=
            { status := 500, ok := false
              error := some "Invalid JSON body: Invalid request body format" } }
    | ReqBody.obj p => routeAndRunV1 w env p {}
    | ReqBody.str s => routeAndRunV1 w env (parseStringBody w s) { parseAttempts := 1 }

/-- The try/catch wrapping a dispatch call shared by the V2/V3 handlers:
a thrown `(message, trace)` is reported as `ok:false` at 500 by the
enclosing catch, and the earlier trace of the caller `t0` is prefixed either
way. -/
def dispatchCatch (t0 : Trace) : Except (String × Trace) Outcome → Outcome
  | Except.ok o => { o with trace := t0.add o.trace }
  | Except.error e =>
      { resp := { status := 500, ok := false, error := some e.1 }, trace := t0.add e.2 }

/-- Notification body template shared verbatim by the V2 and V3
`handleNewPost` handlers (sendPushNotification.ts 63, index.ts 650): the
text `New post by ` followed by the author name (defaulting to `Someone`),
a colon, then the title when truthy, else a 50-character slice of the
content with the ellipsis marker appended unconditionally; a missing
content interpolates as the JS string `undefined`. -/
def postBodyV2 (authorName title content : Option String) : String :=
  "New post by " ++ jsOr authorName "Someone" ++ ": " ++
    (if truthyStr title then title.getD ""
     else
       match content with
       | some c => jsSlice c 50 ++ "..."
       | none => "undefined...")

/-- Notification body template shared verbatim by the V2 and V3
`handleNewComment` handlers (sendPushNotification.ts 95, index.ts 688). -/
def commentBodyV2 (authorName title content : Option String) : String :=
  jsOr authorName "Someone" ++ " commented on your post: \"" ++
    (if truthyStr title then title.getD ""
     else
       match content with
       | some c => jsSlice c 50 ++ "..."
       | none => "undefined...") ++ "\""

/-- The `sendPushNotifications` dispatcher of V2 (sendPushNotification.ts
118-168): resolve managed push targets per user (a per-user failure
degrades to `[]`), fail with `ok:false` 400 when no target is found,
otherwise POST to Expo.  A non-ok Expo response throws
`Expo API error: ...`, modelled by the `Except.error`, which carries the
trace accumulated so far. -/
def sendPushNotificationsV2 (w : World) (nd : NotificationData) :
    Except (String × Trace) Outcome :=
  let targets := (nd.userIds.map (fun uid =>
    match w.listTargets uid with
    | Except.ok ts => ts
    | Except.error _ => ([] : List Target))).flatten
  let t1 : Trace := { targetCalls := nd.userIds.length }
  if targets.length = 0 then
    Except.ok
      { resp := { status := 400, ok := false, error := some "No valid push targets found" }
        trace := t1 }
  else
    let payload : ExpoPayload :=
      { toF := targets.map (fun t => t.identifier)
        title := nd.title
        body := nd.body
        data := { postId := nd.postId, ptype := nd.ptype }
        badge := 1 }
    let response := w.push payload
    let t2 := t1.add { pushArgs := [payload] }
    if !response.ok then
      Except.error ("Expo API error: " ++ response.errorText, t2)
    else
      Except.ok
        { resp :=
            { status := 200, ok := true
              messageId := extractMessageId response.result
              sentTo := some targets.length }
          trace := t2 }

/-- The `handleNewPost` handler of V2 (sendPushNotification.ts 44-74); its
catch converts a thrown dispatch error into an `ok:false` 500 response.
`res.json` calls without an explicit status default to 200. -/
def handleNewPostV2 (w : World) (env : Env) (postDoc : Doc) : Outcome :=
  let databaseId := jsOr env.databaseId "default"
  let usersCollectionId := jsOr env.usersCollectionId "users_collection"
  match w.listDocs databaseId usersCollectionId with
  | Except.error msg =>
      { resp := { status := 500, ok := false, error := some msg }, trace := { dbCalls := 1 } }
  | Except.ok users =>
      let userIds := ((users.take 100).map (fun u => u.idF.getD "")).filter
        (fun uid => !(jsStrictEq (some uid) postDoc.authorId))
      if userIds.length = 0 then
        { resp := { status := 200, ok := true, message := some "No users to notify" }
          trace := { dbCalls := 1 } }
      else
        let nd : NotificationData :=
          { userIds := userIds
            title := "New Post"
            body := postBodyV2 postDoc.authorName postDoc.title postDoc.content
            postId := postDoc.idF
            ptype := some "new_post" }
        dispatchCatch { dbCalls := 1 } (sendPushNotificationsV2 w nd)

/-- The `handleNewComment` handler of V2 (sendPushNotification.ts
76-106). -/
def handleNewCommentV2 (w : World) (env : Env) (commentDoc : Doc) : Outcome :=
  let databaseId := jsOr env.databaseId "default"
  let postsCollectionId := jsOr env.postsCollectionId "posts_collection"
  match getDocCall w databaseId postsCollectionId commentDoc.postId with
  | Except.error msg =>
      { resp := { status := 500, ok := false, error := some msg }, trace := { dbCalls := 1 } }
  | Except.ok post =>
      if jsStrictEq post.authorId commentDoc.userId then
        { resp := { status := 200, ok := true, message := some "No notification needed - same user" }
          trace := { dbCalls := 1 } }
      else
        let nd : NotificationData :=
          { userIds := [post.authorId.getD ""]
            title := "New Comment"
            body := commentBodyV2 commentDoc.authorName post.title post.content
            postId := commentDoc.postId
            ptype := some "new_comment" }
        dispatchCatch { dbCalls := 1 } (sendPushNotificationsV2 w nd)

/-- The `handleDirectCall` handler of V2 (sendPushNotification.ts 108-116);
the missing-field throw propagates to the module-level catch. -/
def handleDirectCallV2 (w : World) (p : Payload) : Except (String × Trace) Outcome :=
  if !(truthyList p.userIds) || !(truthyStr p.doc.title) || !(truthyStr p.bodyF)
      || !(truthyStr p.doc.postId) || !(truthyStr p.typeF) then
    Except.error ("Missing required fields: userIds, title, body, postId, type", {})
  else
    sendPushNotificationsV2 w
      { userIds := p.userIds.getD []
        title := p.doc.title.getD ""
        body := p.bodyF.getD ""
        postId := p.doc.postId
        ptype := p.typeF }

/-- The `handleWebhookEvent` router of V2 (sendPushNotification.ts 30-42);
the document handed on is the payload itself (`const document = payload`). -/
def handleWebhookEventV2 (w : World) (env : Env) (p : Payload) : Outcome :=
  if containsSubstr (p.events.headD "") "posts_collection" &&
      containsSubstr (p.events.headD "") "create" then
    handleNewPostV2 w env p.doc
  else if containsSubstr (p.events.headD "") "comments_collection" &&
      containsSubstr (p.events.headD "") "create" then
    handleNewCommentV2 w env p.doc
  else
    { resp := { status := 400, ok := false, error := some "Unhandled event type" } }

/-- The module-level handler of V2 (sendPushNotification.ts 4-28).  It
performs no credential check: the client is built straight from the
environment and `JSON.parse(req.body)` runs on every invocation; the
module-level catch reports any thrown message at 500. -/
def moduleExportsV2 (w : World) (env : Env) (body : String) : Outcome :=
  let t0 : Trace := { parseAttempts := 1 }
  match w.parse body with
  | Except.error msg =>
      { resp := { status := 500, ok := false, error := some msg }, trace := t0 }
  | Except.ok payload =>
      if 0 < payload.events.length then
        let o := handleWebhookEventV2 w env payload
        { o with trace := t0.add o.trace }
      else
        dispatchCatch t0 (handleDirectCallV2 w payload)

/-- The Expo payload V3 builds (index.ts 746-754): the target lookup is
commented out in the source, so a hardcoded Expo push token is the only
recipient. -/
def buildExpoPayloadV3 (nd : NotificationData) : ExpoPayload :=
  { toF := ["ExponentPushToken[2urmJODmArO240nQ1D6fZX]"]
    title := nd.title
    body := nd.body
    data := { postId := nd.postId, ptype := nd.ptype }
    badge := 1 }

/-- The `sendPushNotifications` dispatcher of V3 (index.ts 717-777).  On a
non-ok Expo response it responds `ok:false` 500; on a successful response
line 776 reads `targets.length`, but no variable `targets` is declared (its
definition is commented out), so JS evaluation throws
`ReferenceError: targets is not defined`, modelled by the `Except.error`. -/
def sendPushNotificationsV3 (w : World) (nd : NotificationData) :
    Except (String × Trace) Outcome :=
  let payload := buildExpoPayloadV3 nd
  let response := w.push payload
  let t : Trace := { pushArgs := [payload] }
  if !response.ok then
    Except.ok
      { resp := { status := 500, ok := false, error := some response.errorText }, trace := t }
  else
    Except.error ("targets is not defined", t)

/-- The `handleNewPost` handler of V3 (index.ts 624-661).  It receives
`payload.document`, which may be `undefined`; the users are listed first,
and reading `.authorId` off an undefined document then throws a TypeError
that the catch of the handler reports at 500. -/
def handleNewPostV3 (w : World) (env : Env) (doc : Option Doc) : Outcome :=
  let databaseId := jsOr env.databaseId "default"
  let usersCollectionId := jsOr env.usersCollectionId "users_collection"
  match w.listDocs databaseId usersCollectionId with
  | Except.error msg =>
      { resp := { status := 500, ok := false, error := some msg }, trace := { dbCalls := 1 } }
  | Except.ok users =>
      match doc with
      | none =>
          { resp :=
              { status := 500, ok := false
                error := some "Cannot read properties of undefined (reading authorId)" }
            trace := { dbCalls := 1 } }
      | some postDoc =>
          let userIds := ((users.take 100).map (fun u => u.idF.getD "")).filter
            (fun uid => !(jsStrictEq (some uid) postDoc.authorId))
          if userIds.length = 0 then
            { resp := { status := 200, ok := true, message := some "No users to notify" }
              trace := { dbCalls := 1 } }
          else
            let nd : NotificationData :=
              { userIds := userIds
                title := "New Post"
                body := postBodyV2 postDoc.authorName postDoc.title postDoc.content
                postId := postDoc.idF
                ptype := some "new_post" }
            dispatchCatch { dbCalls := 1 } (sendPushNotificationsV3 w nd)

/-- The `handleNewComment` handler of V3 (index.ts 663-699).  Reading
`.postId` off an undefined document throws before any database call. -/
def handleNewCommentV3 (w : World) (env : Env) (doc : Option Doc) : Outcome :=
  let databaseId := jsOr env.databaseId "default"
  let postsCollectionId := jsOr env.postsCollectionId "6896fbb2003568eb4840"
  match doc with
  | none =>
      { resp :=
          { status := 500, ok := false
            error := some "Cannot read properties of undefined (reading postId)" } }
  | some commentDoc =>
      match getDocCall w databaseId postsCollectionId commentDoc.postId with
      | Except.error msg =>
          { resp := { status := 500, ok := false, error := some msg }, trace := { dbCalls := 1 } }
      | Except.ok post =>
          if jsStrictEq post.authorId commentDoc.userId then
            { resp :=
                { status := 200, ok := true, message := some "No notification needed - same user" }
              trace := { dbCalls := 1 } }
          else
            let nd : NotificationData :=
              { userIds := [post.authorId.getD ""]
                title := "New Comment"
                body := commentBodyV2 commentDoc.authorName post.title post.content
                postId := commentDoc.postId
                ptype := some "new_comment" }
            dispatchCatch { dbCalls := 1 } (sendPushNotificationsV3 w nd)

/-- The `handleDirectCall` handler of V3 (index.ts 701-715). -/
def handleDirectCallV3 (w : World) (p : Payload) : Except (String × Trace) Outcome :=
  if !(truthyList p.userIds) || !(truthyStr p.doc.title) || !(truthyStr p.bodyF)
      || !(truthyStr p.doc.postId) || !(truthyStr p.typeF) then
    Except.error ("Missing required fields: userIds, title, body, postId, type", {})
  else
    sendPushNotificationsV3 w
      { userIds := p.userIds.getD []
        title := p.doc.title.getD ""
        body := p.bodyF.getD ""
        postId := p.doc.postId
        ptype := p.typeF }

/-- The `handleWebhookEvent` router of V3 (index.ts 602-622), matching the
first event string against the hardcoded posts / comments collection ids
and the substring `create`; the document handed on is
`payload.document`. -/
def handleWebhookEventV3 (w : World) (env : Env) (p : Payload) : Outcome :=
  if containsSubstr (p.events.headD "") "6896fbb2003568eb4840" &&
      containsSubstr (p.events.headD "") "create" then
    handleNewPostV3 w env p.document
  else if containsSubstr (p.events.headD "") "68970496002d7aff12cb" &&
      containsSubstr (p.events.headD "") "create" then
    handleNewCommentV3 w env p.document
  else
    { resp := { status := 400, ok := false, error := some "Unhandled event type" } }

/-- Events-based dispatch of a parsed payload in V3 (index.ts 590-594),
with the trace `t0` accumulated by the body-normalisation step. -/
def runPayloadV3 (w : World) (env : Env) (p : Payload) (t0 : Trace) : Outcome :=
  if 0 < p.events.length then
    let o := handleWebhookEventV3 w env p
    { o with trace := t0.add o.trace }
  else
    dispatchCatch t0 (handleDirectCallV3 w p)

/-- The module-level handler of V3 (index.ts 537-600): credential guards
and body normalisation identical to V1 (including the placeholder payload
fallback), then events-based routing; a thrown direct-call error is
reported by the module catch at 500. -/
def moduleExportsV3 (w : World) (env : Env) (body : ReqBody) : Outcome :=
  if !(truthyStr env.projectId) then
    { resp := { status := 500, ok := false, error := some "APPWRITE_PROJECT_ID is not defined" } }
  else if !(truthyStr env.apiKey) then
    { resp := { status := 500, ok := false, error := some "APPWRITE_API_KEY is not defined" } }
  else
    match body with
    | ReqBody.other =>
        { resp :=
            { status := 500, ok := false
              error := some "Invalid JSON body: Invalid request body format" } }
    | ReqBody.obj p => runPayloadV3 w env p {}
    | ReqBody.str s => runPayloadV3 w env (parseStringBody w s) { parseAttempts := 1 }

/-! ### Concrete fixtures used by the closed theorems and witnesses -/

/-- A world in which every external call fails: `JSON.parse` throws, the
document store rejects everything, the Expo endpoint answers non-ok and the
target registry is unavailable. -/
def failWorld : World :=
  { parse := fun _ => Except.error "Unexpected token"
    getDoc := fun _ _ _ => Except.error "Document with the requested ID could not be found."
    listDocs := fun _ _ => Except.error "Collection with the requested ID could not be found."
    push := fun _ => { ok := false, errorText := "push unavailable" }
    listTargets := fun _ => Except.error "registry unavailable" }

/-- A world for exercising the placeholder path of V1: parsing always
throws, a `pushTokens` collection holds one token registered to the
hardcoded placeholder user, and the Expo endpoint acknowledges with one
receipt. -/
def placeholderWorld : World :=
  { failWorld with
    listDocs := fun _ coll =>
      if coll = "push_tokens" then
        Except.ok [{ userId := some "6899b68b00337f047f35", pushToken := some "tokA" }]
      else Except.error "Collection not found"
    push := fun _ => { ok := true, result := { data := some [{ id := some "msg-1" }] } } }

/-- An environment with both credentials and both collection ids set. -/
def fullEnv : Env :=
  { projectId := some "proj", apiKey := some "key"
    postsCollectionId := some "posts", commentsCollectionId := some "comments"
    usersCollectionId := some "users" }

/-- A world whose document store holds one post by `alice` and the user
record of `alice`. -/
def sameUserWorld : World :=
  { failWorld with
    getDoc := fun _ coll i =>
      if coll = "posts" ∧ i = "post1" then
        Except.ok { idF := some "post1", authorId := some "alice" }
      else if coll = "users" ∧ i = "alice" then
        Except.ok { idF := some "alice", name := some "Alice" }
      else Except.error "Document not found" }

/-- A direct-call payload with every required field present. -/
def directPayload : Payload :=
  { doc := { title := some "Hello", postId := some "post9" }
    userIds := some ["u1"]
    bodyF := some "Body text"
    typeF := some "new_post" }

/-- A world that parses every body to `directPayload` and owns no push
targets. -/
def noTargetWorld : World :=
  { failWorld with
    parse := fun _ => Except.ok directPayload
    listTargets := fun _ => Except.ok [] }

/-- Content that is 60 copies of `a` followed by the ellipsis marker: its
own 60-character prefix plus `...` reproduces it in full. -/
def ellipsisContent : String := String.mk (List.replicate 60 'a') ++ "..."

/-! ### Helper lemmas -/

/-- Prepending an empty trace is the identity. -/
theorem trace_empty_add (t : Trace) : Trace.add {} t = t := by
  cases t
  simp [Trace.add]

/-- Length of a string concatenation, character-wise. -/
theorem jsLen_append (a b : String) : jsLen (a ++ b) = jsLen a + jsLen b := by
  simp [jsLen, String.toList, String.data_append]

/-- Length of a 60-or-40 character slice of a longer string. -/
theorem jsLen_jsSlice (c : String) (n : Nat) (h : n ≤ jsLen c) : jsLen (jsSlice c n) = n := by
  have h2 : n ≤ c.toList.length := h
  show (c.toList.take n).length = n
  rw [List.length_take]
  omega

/-! ### Claim theorems -/

set_option maxRecDepth 40000

/-- C1.  The claim states that a string body that fails to parse as JSON
(after quote-cleaning) must yield a deterministic BadRequest and that the
hardcoded placeholder notification is never substituted.  The code does the
opposite: this evaluation of V1 on the unparseable body `not json!` shows
the invocation substituting the placeholder payload, dispatching an Expo
push titled `Test Notification` to the token of the hardcoded user and
answering `ok:true` at 200 — no parse-failure error response is produced. -/
theorem c1_placeholder_substituted_on_unparseable_body :
    moduleExportsV1 placeholderWorld fullEnv (ReqBody.str "not json!") =
      { resp :=
          { status := 200, ok := true, sentTo := some 1, messageId := some "msg-1"
            tokensUsed := some 1 }
        trace :=
          { parseAttempts := 1, dbCalls := 1
            pushArgs :=
              [{ toF := ["tokA"]
                 title := "Test Notification"
                 body := "not json!"
                 data :=
                   { postId := some "6897373f0013ebd5a0c6", ptype := some "new_post"
                     screen := some "PostDetails", paramsPostId := some "6897373f0013ebd5a0c6" }
                 badge := 1, sound := some "default", priority := some "high" }] } } ∧
    (moduleExportsV1 placeholderWorld fullEnv (ReqBody.str "not json!")).resp.ok = true ∧
    ((moduleExportsV1 placeholderWorld fullEnv (ReqBody.str "not json!")).trace.pushArgs.map
        (fun a => a.title)) = ["Test Notification"] := by
  refine ⟨by rfl, by rfl, by rfl⟩

/-- C3.  A new-comment event whose commenter is the author of the post produces
exactly the single benign `ok:true` response `No notification needed -
same user` at 200, with no push-delivery call (and no target or messaging
call) made — only the two `Promise.all` document fetches occur. -/
theorem c3_same_user_comment_no_notification (w : World) (env : Env)
    (commentDoc post commenter : Doc)
    (h1 : getDocCall w (jsOr env.databaseId "default")
        (jsOr env.postsCollectionId "6896fbb2003568eb4840") commentDoc.postId =
        Except.ok post)
    (h2 : getDocCall w (jsOr env.databaseId "default")
        (jsOr env.usersCollectionId "users_collection") commentDoc.userId =
        Except.ok commenter)
    (h3 : jsStrictEq post.authorId commentDoc.userId = true) :
    handleNewCommentV1 w env commentDoc =
      { resp := { status := 200, ok := true, message := some "No notification needed - same user" }
        trace := { dbCalls := 2 } } := by
  simp [handleNewCommentV1, h1, h2, h3]

/-- Witness for C3 at a concrete store: a comment by `alice` on the post
authored by `alice`. -/
theorem c3_same_user_comment_no_notification_witness :
    handleNewCommentV1 sameUserWorld
      { projectId := some "p", apiKey := some "k", postsCollectionId := some "posts"
        usersCollectionId := some "users" }
      { postId := some "post1", userId := some "alice" } =
      { resp := { status := 200, ok := true, message := some "No notification needed - same user" }
        trace := { dbCalls := 2 } } :=
  c3_same_user_comment_no_notification sameUserWorld
    { projectId := some "p", apiKey := some "k", postsCollectionId := some "posts"
      usersCollectionId := some "users" }
    { postId := some "post1", userId := some "alice" }
    { idF := some "post1", authorId := some "alice" }
    { idF := some "alice", name := some "Alice" }
    (by rfl) (by rfl) (by rfl)

/-- C7.  A new-post event for which the author lookup succeeds and the
user listing leaves no user id other than that of the author produces exactly the
single response `ok:true` / `No users to notify` at 200, and no dispatch
call of any kind is made (the trace holds the two document-store reads
only). -/
theorem c7_no_other_users_benign_response (w : World) (env : Env)
    (postDoc author : Doc) (users : List Doc)
    (h1 : getDocCall w (jsOr env.databaseId "default")
        (jsOr env.usersCollectionId "users_collection") postDoc.authorId = Except.ok author)
    (h2 : w.listDocs (jsOr env.databaseId "default")
        (jsOr env.usersCollectionId "users_collection") = Except.ok users)
    (h3 : ((users.take 100).map (fun u => u.idF.getD "")).filter
        (fun uid => !(jsStrictEq (some uid) postDoc.authorId)) = []) :
    handleNewPostV1 w env postDoc =
      { resp := { status := 200, ok := true, message := some "No users to notify" }
        trace := { dbCalls := 2 } } := by
  simp only [handleNewPostV1, h1, h2, h3]
  simp

/-- Witness for C7: a store holding exactly the author `alice` and her
post. -/
theorem c7_no_other_users_benign_response_witness :
    handleNewPostV1
      { sameUserWorld with
        getDoc := fun _ _ i =>
          if i = "alice" then Except.ok { idF := some "alice", name := some "Alice" }
          else Except.error "Document not found"
        listDocs := fun _ _ => Except.ok [{ idF := some "alice", name := some "Alice" }] }
      { projectId := some "p", apiKey := some "k", usersCollectionId := some "users" }
      { idF := some "post1", authorId := some "alice" } =
      { resp := { status := 200, ok := true, message := some "No users to notify" }
        trace := { dbCalls := 2 } } :=
  c7_no_other_users_benign_response
    { sameUserWorld with
      getDoc := fun _ _ i =>
        if i = "alice" then Except.ok { idF := some "alice", name := some "Alice" }
        else Except.error "Document not found"
      listDocs := fun _ _ => Except.ok [{ idF := some "alice", name := some "Alice" }] }
    { projectId := some "p", apiKey := some "k", usersCollectionId := some "users" }
    { idF := some "post1", authorId := some "alice" }
    { idF := some "alice", name := some "Alice" }
    [{ idF := some "alice", name := some "Alice" }]
    (by rfl) (by rfl) (by rfl)

/-- C8.  With both credentials present, any object payload the
`$collectionId` dispatch routes to `handleDirectCall` that has at least one
of `userIds`, `title`, `body`, `postId`, `type` absent or falsy yields the
single `ok:false` validation response naming the missing-field condition at
status 500, and no database, target, or push-delivery call is made. -/
theorem c8_direct_call_missing_fields_rejected (w : World) (env : Env) (p : Payload)
    (hp : truthyStr env.projectId = true) (hk : truthyStr env.apiKey = true)
    (hr : routeV1 env p = Route.direct)
    (hm : truthyList p.userIds = false ∨ truthyStr p.doc.title = false ∨
      truthyStr p.bodyF = false ∨ truthyStr p.doc.postId = false ∨
      truthyStr p.typeF = false) :
    moduleExportsV1 w env (ReqBody.obj p) =
      { resp :=
          { status := 500, ok := false
            error := some "Missing required fields: userIds, title, body, postId, type" }
        trace := {} } := by
  have hcond : (!(truthyList p.userIds) || !(truthyStr p.doc.title) || !(truthyStr p.bodyF)
      || !(truthyStr p.doc.postId) || !(truthyStr p.typeF)) = true := by
    rcases hm with h | h | h | h | h <;> simp [h]
  simp [moduleExportsV1, hp, hk, routeAndRunV1, hr, handleDirectCallV1, hcond, trace_empty_add]

/-- Witness for C8: a payload carrying every required field except `body`. -/
theorem c8_direct_call_missing_fields_rejected_witness :
    moduleExportsV1 failWorld fullEnv
      (ReqBody.obj
        { doc := { title := some "Hello", postId := some "post9" }
          userIds := some ["u1"], typeF := some "new_post" }) =
      { resp :=
          { status := 500, ok := false
            error := some "Missing required fields: userIds, title, body, postId, type" }
        trace := {} } :=
  c8_direct_call_missing_fields_rejected failWorld fullEnv
    { doc := { title := some "Hello", postId := some "post9" }
      userIds := some ["u1"], typeF := some "new_post" }
    (by decide) (by decide) (by decide) (Or.inr (Or.inr (Or.inl (by decide))))

/-- C10.  In the `$collectionId`-dispatching variant, when
`POSTS_COLLECTION_ID` is unset every payload lacking a `$collectionId`
field satisfies the strict-equality check (`undefined === undefined`) and
is routed to `handleNewPost`, never to `handleDirectCall`: with both
credentials present the whole invocation reduces to the new-post handler
applied to `document || payload`. -/
theorem c10_unset_posts_collection_routes_direct_calls_to_new_post
    (w : World) (env : Env) (p : Payload)
    (h1 : env.postsCollectionId = none) (h2 : p.collectionId = none)
    (hp : truthyStr env.projectId = true) (hk : truthyStr env.apiKey = true) :
    routeV1 env p = Route.newPost ∧ routeV1 env p ≠ Route.direct ∧
    moduleExportsV1 w env (ReqBody.obj p) = handleNewPostV1 w env (p.document.getD p.doc) := by
  have hroute : routeV1 env p = Route.newPost := by
    simp [routeV1, h1, h2, jsStrictEq]
  refine ⟨hroute, by simp [hroute], ?_⟩
  simp [moduleExportsV1, hp, hk, routeAndRunV1, hroute, trace_empty_add]

/-- Witness for C10: a well-formed direct-call payload (all five required
fields present) is still routed to `handleNewPost` when
`POSTS_COLLECTION_ID` is unset; at this store the new-post handler then
fails on the author lookup instead of validating the direct call. -/
theorem c10_unset_posts_collection_routes_direct_calls_to_new_post_witness :
    routeV1 { projectId := some "p", apiKey := some "k" } directPayload = Route.newPost ∧
    routeV1 { projectId := some "p", apiKey := some "k" } directPayload ≠ Route.direct ∧
    moduleExportsV1 failWorld { projectId := some "p", apiKey := some "k" }
      (ReqBody.obj directPayload) =
      handleNewPostV1 failWorld { projectId := some "p", apiKey := some "k" }
        (directPayload.document.getD directPayload.doc) :=
  c10_unset_posts_collection_routes_direct_calls_to_new_post failWorld
    { projectId := some "p", apiKey := some "k" } directPayload
    (by decide) (by decide) (by decide) (by decide)

/-- A world holding three push tokens for three users and an Expo endpoint
acknowledging with one receipt. -/
def threeTokenWorld : World :=
  { failWorld with
    listDocs := fun _ coll =>
      if coll = "push_tokens" then
        Except.ok
          [{ userId := some "u1", pushToken := some "t1" },
           { userId := some "u2", pushToken := some "t2" },
           { userId := some "u3", pushToken := some "t3" }]
      else Except.error "Collection not found"
    push := fun _ => { ok := true, result := { data := some [{ id := some "msg-7" }] } } }

/-- A three-recipient notification intent. -/
def threeUserNotification : NotificationData :=
  { userIds := ["u1", "u2", "u3"], title := "T", body := "B" }

/-- A world whose Expo endpoint accepts every push. -/
def pushOkWorld : World :=
  { failWorld with
    push := fun _ => { ok := true, result := { data := some [{ id := some "m1" }] } } }

/-- A world whose user store holds exactly the single user `alice`. -/
def onlyAliceWorld : World :=
  { failWorld with listDocs := fun _ _ => Except.ok [{ idF := some "alice" }] }

/-- A V3 webhook payload: a create event on the hardcoded posts collection
with a post document authored by `alice`. -/
def v3PostEventPayload : Payload :=
  { events := ["databases.db.collections.6896fbb2003568eb4840.documents.x.create"]
    document := some { idF := some "post1", authorId := some "alice" } }

/-- C2, amended.  The two index.ts handlers guard the credentials: when
`APPWRITE_PROJECT_ID` is absent (or empty) V1 answers `ok:false` 500 naming
it, with an empty trace — no body parse, no database, target, or push call;
likewise for `APPWRITE_API_KEY`.  The sendPushNotification.ts handler
however performs no credential check at all: every invocation of it
attempts to parse the body regardless of the environment. -/
theorem c2_amended_credential_guards :
    (∀ (w : World) (env : Env) (body : ReqBody), truthyStr env.projectId = false →
      moduleExportsV1 w env body =
        { resp := { status := 500, ok := false, error := some "APPWRITE_PROJECT_ID is not defined" }
          trace := {} }) ∧
    (∀ (w : World) (env : Env) (body : ReqBody),
      truthyStr env.projectId = true → truthyStr env.apiKey = false →
      moduleExportsV1 w env body =
        { resp := { status := 500, ok := false, error := some "APPWRITE_API_KEY is not defined" }
          trace := {} }) ∧
    (∀ (w : World) (env : Env) (body : String),
      1 ≤ (moduleExportsV2 w env body).trace.parseAttempts) := by
  refine ⟨?_, ?_, ?_⟩
  · intro w env body h
    simp [moduleExportsV1, h]
  · intro w env body h1 h2
    simp [moduleExportsV1, h1, h2]
  · intro w env body
    simp only [moduleExportsV2]
    cases hp : w.parse body with
    | error msg => simp
    | ok payload =>
        by_cases he : 0 < payload.events.length
        · simp [he, Trace.add]
        · simp only [he, if_false, if_neg]
          cases hd : handleDirectCallV2 w payload with
          | ok o => simp [dispatchCatch, Trace.add]
          | error e => simp [dispatchCatch, Trace.add]

/-- Witness for the amended C2 at concrete inputs: V1 with each credential
missing, and a V2 invocation (which parses even with an empty
environment). -/
theorem c2_amended_credential_guards_witness :
    moduleExportsV1 failWorld { apiKey := some "k" } (ReqBody.str "x") =
      { resp := { status := 500, ok := false, error := some "APPWRITE_PROJECT_ID is not defined" }
        trace := {} } ∧
    moduleExportsV1 failWorld { projectId := some "p" } (ReqBody.str "x") =
      { resp := { status := 500, ok := false, error := some "APPWRITE_API_KEY is not defined" }
        trace := {} } ∧
    1 ≤ (moduleExportsV2 noTargetWorld {} "{}").trace.parseAttempts :=
  ⟨c2_amended_credential_guards.1 failWorld { apiKey := some "k" } (ReqBody.str "x") (by decide),
   c2_amended_credential_guards.2.1 failWorld { projectId := some "p" } (ReqBody.str "x")
     (by decide) (by decide),
   c2_amended_credential_guards.2.2 noTargetWorld {} "{}"⟩

/-- C2, counterexample.  The claim quantifies over the cited handlers,
including sendPushNotification.ts (V2): there, with both credentials
absent, a parseable direct-call body is parsed, a downstream target-registry
call is made, and the response is the 400 `No valid push targets found` —
not the credential `ok:false` 500 the claim requires before any parsing or
downstream call. -/
theorem c2_counterexample_v2_has_no_credential_guard :
    moduleExportsV2 noTargetWorld {} "direct-call-json-body" =
      { resp := { status := 400, ok := false, error := some "No valid push targets found" }
        trace := { parseAttempts := 1, targetCalls := 1 } } ∧
    (moduleExportsV2 noTargetWorld {} "direct-call-json-body").resp.status ≠ 500 ∧
    (moduleExportsV2 noTargetWorld {} "direct-call-json-body").trace.parseAttempts = 1 ∧
    (moduleExportsV2 noTargetWorld {} "direct-call-json-body").trace.targetCalls = 1 := by
  refine ⟨by rfl, by decide, by rfl, by rfl⟩

/-- C4, amended.  In the token-collection strategy of V1, resolving zero
tokens is a benign terminal outcome: the invocation answers `ok:true` /
`No push tokens found` / `sentTo: 0` at 200.  In the managed-target
strategy of sendPushNotification.ts, however, resolving zero targets is
reported as the failure `ok:false` / `No valid push targets found` at
status 400. -/
theorem c4_amended_zero_recipients (w : World) (env : Env) (nd : NotificationData)
    (t : Trace)
    (h1 : getUserPushTokensV1 w env nd.userIds = ([], t))
    (h2 : (nd.userIds.map (fun uid =>
      match w.listTargets uid with
      | Except.ok ts => ts
      | Except.error _ => ([] : List Target))).flatten = []) :
    sendPushNotificationsV1 w env nd =
      { resp := { status := 200, ok := true, message := some "No push tokens found"
                  sentTo := some 0 }
        trace := t } ∧
    sendPushNotificationsV2 w nd =
      Except.ok
        { resp := { status := 400, ok := false, error := some "No valid push targets found" }
          trace := { targetCalls := nd.userIds.length } } := by
  constructor
  · simp [sendPushNotificationsV1, h1]
  · simp [sendPushNotificationsV2, h2]

/-- Witness for the amended C4: one recipient, a store with no token
collections and an empty target registry. -/
theorem c4_amended_zero_recipients_witness :
    sendPushNotificationsV1 noTargetWorld {}
        { userIds := ["u1"], title := "T", body := "B" } =
      { resp := { status := 200, ok := true, message := some "No push tokens found"
                  sentTo := some 0 }
        trace := { dbCalls := 2 } } ∧
    sendPushNotificationsV2 noTargetWorld { userIds := ["u1"], title := "T", body := "B" } =
      Except.ok
        { resp := { status := 400, ok := false, error := some "No valid push targets found" }
          trace := { targetCalls := 1 } } :=
  c4_amended_zero_recipients noTargetWorld {}
    { userIds := ["u1"], title := "T", body := "B" } { dbCalls := 2 } (by rfl) (by rfl)

/-- C4, counterexample.  The claim states that for every token-resolution
strategy zero resolved recipients terminates with an `ok:true` response and
never an `ok:false` failure; in the managed-target strategy of
sendPushNotification.ts a dispatch over one user with zero registered
targets answers `ok:false` at 400. -/
theorem c4_counterexample_zero_targets_reported_as_failure :
    sendPushNotificationsV2 noTargetWorld { userIds := ["u1"], title := "T", body := "B" } =
      Except.ok
        { resp := { status := 400, ok := false, error := some "No valid push targets found" }
          trace := { targetCalls := 1 } } := by
  rfl

/-- C5, amended.  With no title and content longer than the budget, the V1
preview is exactly the first 60 (posts) or 40 (comments) characters of the
content followed by `...`; this truncated preview differs from the full
content except in the degenerate case where the content is exactly its own
60- (resp. 40-) character prefix followed by `...` (content length 63,
resp. 43). -/
theorem c5_amended_truncated_previews :
    (∀ (authorName c : String), 60 < jsLen c →
      postBodyV1 authorName none (some c) =
        authorName ++ " shared a new post" ++ ": \"" ++ (jsSlice c 60 ++ "...") ++ "\"" ∧
      (jsLen c ≠ 63 → jsSlice c 60 ++ "..." ≠ c)) ∧
    (∀ (commenterName c : String), 40 < jsLen c →
      commentBodyV1 commenterName none (some c) =
        commenterName ++ " commented on your post" ++ ": \"" ++ (jsSlice c 40 ++ "...") ++ "\"" ∧
      (jsLen c ≠ 43 → jsSlice c 40 ++ "..." ≠ c)) := by
  constructor
  · intro authorName c hlen
    have hne : c ≠ "" := by
      rintro rfl
      exact absurd hlen (by decide)
    constructor
    · simp [postBodyV1, truthyStr, hne, hlen]
    · intro h63 heq
      have hL := congrArg jsLen heq
      rw [jsLen_append, jsLen_jsSlice c 60 (Nat.le_of_lt hlen)] at hL
      have hdots : jsLen ("..." : String) = 3 := by decide
      rw [hdots] at hL
      omega
  · intro commenterName c hlen
    have hne : c ≠ "" := by
      rintro rfl
      exact absurd hlen (by decide)
    constructor
    · simp [commentBodyV1, truthyStr, hne, hlen]
    · intro h43 heq
      have hL := congrArg jsLen heq
      rw [jsLen_append, jsLen_jsSlice c 40 (Nat.le_of_lt hlen)] at hL
      have hdots : jsLen ("..." : String) = 3 := by decide
      rw [hdots] at hL
      omega

/-- Witness for the amended C5 at a 70-character post content and a
45-character comment content. -/
theorem c5_amended_truncated_previews_witness :
    (postBodyV1 "Ann" none (some (String.mk (List.replicate 70 'x'))) =
      "Ann" ++ " shared a new post" ++ ": \"" ++
        (jsSlice (String.mk (List.replicate 70 'x')) 60 ++ "...") ++ "\"" ∧
     (jsLen (String.mk (List.replicate 70 'x')) ≠ 63 →
       jsSlice (String.mk (List.replicate 70 'x')) 60 ++ "..." ≠
         String.mk (List.replicate 70 'x'))) ∧
    (commentBodyV1 "Bob" none (some (String.mk (List.replicate 45 'y'))) =
      "Bob" ++ " commented on your post" ++ ": \"" ++
        (jsSlice (String.mk (List.replicate 45 'y')) 40 ++ "...") ++ "\"" ∧
     (jsLen (String.mk (List.replicate 45 'y')) ≠ 43 →
       jsSlice (String.mk (List.replicate 45 'y')) 40 ++ "..." ≠
         String.mk (List.replicate 45 'y'))) :=
  ⟨c5_amended_truncated_previews.1 "Ann" (String.mk (List.replicate 70 'x')) (by decide),
   c5_amended_truncated_previews.2 "Bob" (String.mk (List.replicate 45 'y')) (by decide)⟩

/-- C5, counterexample.  The claim adds that the generated body "never"
contains the full content.  Take the content that is 60 copies of `a`
followed by `...` (length 63 > 60): its 60-character preview plus the
appended ellipsis reproduces the content exactly, so the generated body
contains the full content verbatim. -/
theorem c5_counterexample_body_contains_full_content :
    60 < jsLen ellipsisContent ∧
    jsSlice ellipsisContent 60 ++ "..." = ellipsisContent ∧
    postBodyV1 "Ann" none (some ellipsisContent) =
      "Ann" ++ " shared a new post" ++ ": \"" ++ ellipsisContent ++ "\"" ∧
    containsSubstr (postBodyV1 "Ann" none (some ellipsisContent)) ellipsisContent = true := by
  refine ⟨by decide, by decide, by decide, by decide⟩

/-- C6.  When the V1 token resolver yields exactly three tokens and the Expo
endpoint answers ok, the final response is `ok:true` at 200 with
`sentTo: 3` (the resolved token count) and `messageId` the id of the first
delivery receipt `result.data[0].id`. -/
theorem c6_three_tokens_success (w : World) (env : Env) (nd : NotificationData)
    (toks : List String) (t : Trace)
    (h1 : getUserPushTokensV1 w env nd.userIds = (toks, t))
    (h2 : toks.length = 3)
    (h3 : (w.push (buildExpoPayloadV1 nd toks)).ok = true) :
    sendPushNotificationsV1 w env nd =
      { resp :=
          { status := 200, ok := true
            messageId := extractMessageId (w.push (buildExpoPayloadV1 nd toks)).result
            sentTo := some 3, tokensUsed := some 3 }
        trace := t.add { pushArgs := [buildExpoPayloadV1 nd toks] } } ∧
    (∀ (r0 : ExpoReceipt) (rs : List ExpoReceipt),
      (w.push (buildExpoPayloadV1 nd toks)).result.data = some (r0 :: rs) →
      extractMessageId (w.push (buildExpoPayloadV1 nd toks)).result = r0.id) := by
  constructor
  · simp [sendPushNotificationsV1, h1, h2, h3]
  · intro r0 rs h
    simp [extractMessageId, h]

/-- Witness for C6: three users with one stored token each, an Expo
endpoint acknowledging with the receipt id `msg-7`. -/
theorem c6_three_tokens_success_witness :
    sendPushNotificationsV1 threeTokenWorld {} threeUserNotification =
      { resp :=
          { status := 200, ok := true
            messageId :=
              extractMessageId
                (threeTokenWorld.push
                  (buildExpoPayloadV1 threeUserNotification ["t1", "t2", "t3"])).result
            sentTo := some 3, tokensUsed := some 3 }
        trace := Trace.add { dbCalls := 1 }
          { pushArgs := [buildExpoPayloadV1 threeUserNotification ["t1", "t2", "t3"]] } } ∧
    extractMessageId
        (threeTokenWorld.push
          (buildExpoPayloadV1 threeUserNotification ["t1", "t2", "t3"])).result =
      some "msg-7" :=
  ⟨(c6_three_tokens_success threeTokenWorld {} threeUserNotification ["t1", "t2", "t3"]
      { dbCalls := 1 } (by rfl) (by rfl) (by rfl)).1,
   (c6_three_tokens_success threeTokenWorld {} threeUserNotification ["t1", "t2", "t3"]
      { dbCalls := 1 } (by rfl) (by rfl) (by rfl)).2 { id := some "msg-7" } [] (by rfl)⟩

/-- In V3, whatever notification is dispatched, the catch around the
dispatcher never yields an `ok:true` response: a failed push is reported
`ok:false` at 500, and a successful push hits the undefined `targets`
reference, whose thrown error the catch also reports `ok:false` at 500. -/
theorem dispatchCatch_sendV3_never_ok (t0 : Trace) (w : World) (nd : NotificationData) :
    (dispatchCatch t0 (sendPushNotificationsV3 w nd)).resp.ok = false := by
  by_cases hok : (w.push (buildExpoPayloadV3 nd)).ok <;>
    simp [sendPushNotificationsV3, dispatchCatch, hok]

/-- A V3 direct call never produces an `ok:true` outcome. -/
theorem dispatchCatch_directV3_never_ok (t0 : Trace) (w : World) (p : Payload) :
    (dispatchCatch t0 (handleDirectCallV3 w p)).resp.ok = false := by
  unfold handleDirectCallV3
  split
  · simp [dispatchCatch]
  · exact dispatchCatch_sendV3_never_ok t0 w _

/-- An `ok:true` response of the V3 `handleNewPost` handler comes from the benign
`No users to notify` branch only, which makes no push call. -/
theorem handleNewPostV3_ok_no_push (w : World) (env : Env) (d : Option Doc) :
    (handleNewPostV3 w env d).resp.ok = true →
    (handleNewPostV3 w env d).trace.pushArgs = [] := by
  rcases hl : w.listDocs (jsOr env.databaseId "default")
      (jsOr env.usersCollectionId "users_collection") with msg | users
  · simp [handleNewPostV3, hl]
  · rcases d with _ | postDoc
    · simp [handleNewPostV3, hl]
    · simp only [handleNewPostV3, hl]
      split
      · simp
      · simp [dispatchCatch_sendV3_never_ok]

/-- An `ok:true` response of the V3 `handleNewComment` handler comes from the benign
same-user branch only, which makes no push call. -/
theorem handleNewCommentV3_ok_no_push (w : World) (env : Env) (d : Option Doc) :
    (handleNewCommentV3 w env d).resp.ok = true →
    (handleNewCommentV3 w env d).trace.pushArgs = [] := by
  rcases d with _ | commentDoc
  · simp [handleNewCommentV3]
  · rcases hg : getDocCall w (jsOr env.databaseId "default")
        (jsOr env.postsCollectionId "6896fbb2003568eb4840") commentDoc.postId with msg | post
    · simp [handleNewCommentV3, hg]
    · simp only [handleNewCommentV3, hg]
      split
      · simp
      · simp [dispatchCatch_sendV3_never_ok]

/-- An `ok:true` response of the V3 webhook router makes no push call. -/
theorem handleWebhookEventV3_ok_no_push (w : World) (env : Env) (p : Payload) :
    (handleWebhookEventV3 w env p).resp.ok = true →
    (handleWebhookEventV3 w env p).trace.pushArgs = [] := by
  unfold handleWebhookEventV3
  split
  · exact handleNewPostV3_ok_no_push w env p.document
  · split
    · exact handleNewCommentV3_ok_no_push w env p.document
    · simp

/-- An `ok:true` response of the V3 payload dispatch makes no push call,
provided the body-normalisation trace holds no push (it never does). -/
theorem runPayloadV3_ok_no_push (w : World) (env : Env) (p : Payload) (t0 : Trace)
    (ht : t0.pushArgs = []) :
    (runPayloadV3 w env p t0).resp.ok = true →
    (runPayloadV3 w env p t0).trace.pushArgs = [] := by
  unfold runPayloadV3
  split
  · intro h
    simp only [Trace.add, List.append_eq_nil, ht, true_and]
    exact handleWebhookEventV3_ok_no_push w env p h
  · simp [dispatchCatch_directV3_never_ok]

/-- C9.  In the hardcoded-token variant V3, the `ok:true` success branch of
`sendPushNotifications` is unreachable: after every successful Expo
response, evaluating the undefined variable `targets` throws
`ReferenceError: targets is not defined` (first conjunct), and consequently
no invocation of the whole handler that performed a push dispatch ever
answers `ok:true` — every `ok:true` response comes from a branch with an
empty list of push calls (second conjunct). -/
theorem c9_success_branch_unreachable :
    (∀ (w : World) (nd : NotificationData),
      (w.push (buildExpoPayloadV3 nd)).ok = true →
      sendPushNotificationsV3 w nd =
        Except.error ("targets is not defined", { pushArgs := [buildExpoPayloadV3 nd] })) ∧
    (∀ (w : World) (env : Env) (body : ReqBody),
      (moduleExportsV3 w env body).resp.ok = true →
      (moduleExportsV3 w env body).trace.pushArgs = []) := by
  constructor
  · intro w nd h
    simp [sendPushNotificationsV3, h]
  · intro w env body
    unfold moduleExportsV3
    by_cases hp : truthyStr env.projectId
    · by_cases hk : truthyStr env.apiKey
      · simp only [hp, hk, Bool.not_true, Bool.false_eq_true, if_false]
        cases body with
        | other => simp
        | obj p => exact runPayloadV3_ok_no_push w env p {} (by rfl)
        | str s => exact runPayloadV3_ok_no_push w env (parseStringBody w s) _ (by rfl)
      · simp only [hp, Bool.not_true, Bool.false_eq_true, if_false]
        simp [eq_false_of_ne_true hk]
    · simp [eq_false_of_ne_true hp]

/-- Witness for C9: a successful push on a direct call throws the
`targets` ReferenceError, the module catch reports it `ok:false` at 500;
and a benign `ok:true` invocation (a post-create webhook whose author is
the only stored user) indeed made no push call. -/
theorem c9_success_branch_unreachable_witness :
    sendPushNotificationsV3 pushOkWorld { userIds := ["u1"], title := "T", body := "B" } =
      Except.error ("targets is not defined",
        { pushArgs := [buildExpoPayloadV3 { userIds := ["u1"], title := "T", body := "B" }] }) ∧
    (moduleExportsV3 onlyAliceWorld { projectId := some "p", apiKey := some "k" }
        (ReqBody.obj v3PostEventPayload)).trace.pushArgs = [] :=
  ⟨c9_success_branch_unreachable.1 pushOkWorld
      { userIds := ["u1"], title := "T", body := "B" } (by rfl),
   c9_success_branch_unreachable.2 onlyAliceWorld
      { projectId := some "p", apiKey := some "k" } (ReqBody.obj v3PostEventPayload) (by rfl)⟩

end JetSend
